import Mathlib

/-!
Verification of the MAX30102 pulse-oximeter kernel driver.

Shallow embedding of the driver's register access layer
(`max30102_i2c.c`), configuration setters (`max30102_config.c`), FIFO
work handler (`max30102_interrupt.c` and the workqueue handler of the
advanced module), ioctl dispatcher, and temperature read path
(`max30102_data.c`), together with theorems about the specified
properties.  Machine integers are modelled as `Nat`/`Int` with explicit
reductions modulo 2^8 where the C code stores into `uint8_t`, and C's
truncated `%` resp. two's-complement `&` on `int` are modelled with
`Int.tmod` resp. `Int.land`.
-/

namespace MAX30102

/-- Register addresses from `max30102.h`. -/
def REG_INTERRUPT_STATUS_1 : Nat := 0x00

/-- Register address of the second interrupt status register. -/
def REG_INTERRUPT_STATUS_2 : Nat := 0x01

/-- Register address of the FIFO write pointer. -/
def REG_FIFO_WRITE_POINTER : Nat := 0x04

/-- Register address of the FIFO overflow counter. -/
def REG_OVERFLOW_COUNTER : Nat := 0x05

/-- Register address of the FIFO read pointer. -/
def REG_FIFO_READ_POINTER : Nat := 0x06

/-- Register address of the FIFO data port. -/
def REG_FIFO_DATA : Nat := 0x07

/-- Register address of the FIFO configuration register. -/
def REG_FIFO_CONFIG : Nat := 0x08

/-- Register address of the mode configuration register. -/
def REG_MODE_CONFIG : Nat := 0x09

/-- Register address of the SpO2 configuration register. -/
def REG_SPO2_CONFIG : Nat := 0x0A

/-- Register address of the first multi-LED slot register. -/
def REG_MULTI_LED_MODE_1 : Nat := 0x11

/-- Register address of the second multi-LED slot register. -/
def REG_MULTI_LED_MODE_2 : Nat := 0x12

/-- Register address of the die-temperature integer register. -/
def REG_DIE_TEMP_INTEGER : Nat := 0x1F

/-- Register address of the die-temperature fraction register. -/
def REG_DIE_TEMP_FRACTION : Nat := 0x20

/-- Register address of the die-temperature trigger register. -/
def REG_DIE_TEMP_CONFIG : Nat := 0x21

/-- Linux errno codes, negated as the driver returns them. -/
def EIO : Int := -5

/-- Negated errno for a bad address during user copy. -/
def EFAULT : Int := -14

/-- Negated errno for an invalid argument. -/
def EINVAL : Int := -22

/-- Negated errno for an unknown ioctl command. -/
def ENOTTY : Int := -25

/-- Negated errno for the temperature poll timeout. -/
def ETIMEDOUT : Int := -110

/-- C conversion of an `int` value to `uint8_t`: reduction modulo 2^8
(the two's-complement wraparound conversion the C standard prescribes
for unsigned targets). -/
def u8 (x : Int) : Nat := (x % 256).toNat

/-- Sample count computed by the advanced work handler:
`len = (write_ptr - read_ptr + 32) % 32` evaluated in C `int`
arithmetic (truncated `%`, i.e. `Int.tmod`) and then stored into the
`uint8_t` variable `len`. -/
def fifoLenMod (wp rp : Nat) : Nat :=
  u8 (Int.tmod ((wp : Int) - (rp : Int) + 32) 32)

/-- Bit pattern of a C `int` value: the 32-bit two's-complement
representation, as a natural number below 2^32. -/
def u32 (x : Int) : Nat := (x % 4294967296).toNat

/-- Sample count computed by the basic work handler:
`len = (write_ptr - read_ptr) & 0x1F` evaluated in C `int` arithmetic
(bitwise and on the 32-bit two's-complement representation) and stored
into the `uint8_t` variable `len`. -/
def fifoLenAnd (wp rp : Nat) : Nat :=
  u8 ((u32 ((wp : Int) - (rp : Int)) &&& 31 : Nat) : Int)

/-- Sample decoding of the advanced work handler:
`(b0 << 10) | (b1 << 2) | (b2 >> 6)`. -/
def decode18 (b0 b1 b2 : Nat) : Nat :=
  (b0 <<< 10) ||| (b1 <<< 2) ||| (b2 >>> 6)

/-- Sample decoding of the basic work handler:
`(b0 << 16) | (b1 << 8) | b2`. -/
def decode24 (b0 b1 b2 : Nat) : Nat :=
  (b0 <<< 16) ||| (b1 <<< 8) ||| b2

/-- Record of a bus transaction performed by a configuration setter. -/
inductive BusOp
  | read (reg : Nat)
  | write (reg : Nat) (val : Nat)
deriving DecidableEq

/-- Abstract bus behaviour seen by the configuration setters:
`readVal reg` is the byte a successful `max30102_read_reg` deposits,
`writeRes reg` the return value of `max30102_write_reg`. -/
structure CfgBus where
  readVal : Nat → Nat
  writeRes : Nat → Int

/-- Embedding of `max30102_write_reg` (`max30102_i2c.c`): reject
`len > 32` before any transport call, then issue one `i2c_transfer`
of a single message.  `transferRes` is the value `i2c_transfer`
returns; a return different from the message count is mapped to the
negative error itself when negative, otherwise to `-EIO`.  The second
component records whether the transport was invoked. -/
def max30102_write_reg (transferRes : Int) (len : Nat) :
    Except Int Unit × Bool :=
  if 32 < len then (.error EINVAL, false)
  else if transferRes ≠ 1 then
    (.error (if transferRes < 0 then transferRes else EIO), true)
  else (.ok (), true)

/-- Embedding of `max30102_read_reg` (`max30102_i2c.c`): reject
`len > 32` before any transport call, then issue one `i2c_transfer`
of two chained messages (register address write phase, data read
phase). -/
def max30102_read_reg (transferRes : Int) (len : Nat) :
    Except Int Unit × Bool :=
  if 32 < len then (.error EINVAL, false)
  else if transferRes ≠ 2 then
    (.error (if transferRes < 0 then transferRes else EIO), true)
  else (.ok (), true)

/-- Embedding of `max30102_set_mode`
(`max30102-kernel-module-advance/max30102_config.c`): modes other than
0x02, 0x03, 0x07 are rejected with `-EINVAL` before any bus access;
otherwise the mode byte is written to the mode register.  The second
component is the list of bus transactions performed. -/
def max30102_set_mode (bus : CfgBus) (mode : Nat) : Int × List BusOp :=
  if mode ≠ 2 ∧ mode ≠ 3 ∧ mode ≠ 7 then (EINVAL, [])
  else (bus.writeRes REG_MODE_CONFIG, [BusOp.write REG_MODE_CONFIG mode])

/-- Embedding of `max30102_set_slot`
(`max30102-kernel-module-advance/max30102_config.c`): slots outside
1..4 or led codes above 3 are rejected with `-EINVAL` before any bus
access; otherwise the slot parity selects a 4-bit sub-field of one of
the two multi-LED registers, which is read-modified-written (the C
code ignores the read's return status and uses the byte it
deposited). -/
def max30102_set_slot (bus : CfgBus) (slot led : Nat) : Int × List BusOp :=
  if slot < 1 ∨ 4 < slot ∨ 3 < led then (EINVAL, [])
  else
    let reg := if slot ≤ 2 then REG_MULTI_LED_MODE_1 else REG_MULTI_LED_MODE_2
    let shift := if slot % 2 = 1 then 0 else 4
    let current := bus.readVal reg % 256
    let value := (current &&& (255 ^^^ (7 <<< shift))) ||| (led <<< shift)
    (bus.writeRes reg, [BusOp.read reg, BusOp.write reg value])

/-- Embedding of `max30102_set_fifo_config`
(`max30102-kernel-module-advance/max30102_config.c`): the guard
`config & ~0xFF` is evaluated on the 32-bit representation (it can
never fire for a `uint8_t` argument); then the byte is written to the
FIFO configuration register. -/
def max30102_set_fifo_config (bus : CfgBus) (config : Nat) : Int × List BusOp :=
  let c := config % 256
  if u32 (c : Int) &&& 4294967040 ≠ 0 then (EINVAL, [])
  else (bus.writeRes REG_FIFO_CONFIG, [BusOp.write REG_FIFO_CONFIG c])

/-- Embedding of `max30102_set_spo2_config`
(`max30102-kernel-module-advance/max30102_config.c`): reject bytes
with bit 7 set (`config & ~0x7F`), extract the pulse-width code
`config & 0x03` and the sample-rate code `(config >> 2) & 0x07`,
reject the datasheet-invalid pairings, and only then write the byte
to the SpO2 configuration register. -/
def max30102_set_spo2_config (bus : CfgBus) (config : Nat) : Int × List BusOp :=
  let c := config % 256
  if u32 (c : Int) &&& 4294967168 ≠ 0 then (EINVAL, [])
  else
    let pw := c &&& 3
    let sr := (c >>> 2) &&& 7
    if (pw = 0 ∧ 4 < sr) ∨ (pw = 1 ∧ 6 < sr) then (EINVAL, [])
    else (bus.writeRes REG_SPO2_CONFIG, [BusOp.write REG_SPO2_CONFIG c])

/-- The six ioctl commands of the command surface, plus the default
case. -/
inductive IoctlCmd
  | readFifo
  | readTemp
  | setMode
  | setSlot
  | setFifoConfig
  | setSpo2Config
  | other
deriving DecidableEq

/-- Inputs of one `max30102_ioctl` invocation: the decoded user
arguments, whether the user copies fault, and the results of the two
read operations (which the dispatcher only propagates). -/
structure IoctlArgs where
  mode : Nat
  slot : Nat
  led : Nat
  fifoConfig : Nat
  spo2Config : Nat
  copyFromUserFails : Bool
  copyToUserFails : Bool
  readFifoRes : Int
  readTempRes : Int

/-- The switch statement of `max30102_ioctl`: `Sum.inl r` models a
`goto unlock` with return value `r` (skipping the trailing `ret = 0`),
`Sum.inr r` models falling out of the switch via `break` with `ret`
equal to `r` — which the C code then overwrites with `ret = 0`. -/
def ioctlSwitch (bus : CfgBus) (a : IoctlArgs) :
    IoctlCmd → (Int ⊕ Int) × List BusOp
  | .readFifo =>
    if a.readFifoRes ≠ 0 then (.inl a.readFifoRes, [])
    else if a.copyToUserFails then (.inl EFAULT, []) else (.inr 0, [])
  | .readTemp =>
    if a.readTempRes ≠ 0 then (.inl a.readTempRes, [])
    else if a.copyToUserFails then (.inl EFAULT, []) else (.inr 0, [])
  | .setMode =>
    if a.copyFromUserFails then (.inl EFAULT, [])
    else
      let r := max30102_set_mode bus a.mode
      (.inr r.1, r.2)
  | .setSlot =>
    if a.copyFromUserFails then (.inl EFAULT, [])
    else if a.slot < 1 ∨ 4 < a.slot ∨ 2 < a.led then (.inl EINVAL, [])
    else
      let r := max30102_set_slot bus a.slot a.led
      (.inr r.1, r.2)
  | .setFifoConfig =>
    if a.copyFromUserFails then (.inl EFAULT, [])
    else
      let r := max30102_set_fifo_config bus a.fifoConfig
      (.inr r.1, r.2)
  | .setSpo2Config =>
    if a.copyFromUserFails then (.inl EFAULT, [])
    else
      let r := max30102_set_spo2_config bus a.spo2Config
      (.inr r.1, r.2)
  | .other => (.inl ENOTTY, [])

/-- Embedding of `max30102_ioctl`: run the switch, then apply the
unconditional `ret = 0;` that sits between the switch and the
`unlock:` label — it is reached exactly by the `break` paths. -/
def max30102_ioctl (bus : CfgBus) (a : IoctlArgs) (cmd : IoctlCmd) :
    Int × List BusOp :=
  match ioctlSwitch bus a cmd with
  | (Sum.inl r, ops) => (r, ops)
  | (Sum.inr _, ops) => (0, ops)

/-- A trivial bus on which every read delivers 0 and every write
succeeds. -/
def cfgBus0 : CfgBus := ⟨fun _ => 0, fun _ => 0⟩

/-- The fields of `struct max30102_data` touched by the work handler:
the stored Red and IR sample arrays (32 entries each), the stored
sample count and the full flag. -/
structure DevState where
  red_data : List Nat
  ir_data : List Nat
  data_len : Nat
  fifo_full : Bool
deriving DecidableEq

/-- Abstract bus behaviour seen by one work-handler invocation: the
outcome of reading each status and pointer register (`.ok v` delivers
the byte `v`), the outcome of the burst read of `n` bytes from the
FIFO data register, and whether `kmalloc` succeeds. -/
structure WorkBus where
  status1Res : Except Int Nat
  status2Res : Except Int Nat
  writePtrRes : Except Int Nat
  readPtrRes : Except Int Nat
  fifoBytesRes : Nat → Except Int (List Nat)
  allocOk : Bool

/-- The decode loop `for (i = 0; i < len; i++)` writing channel values
into a 32-entry array: entries below `len` receive the decoded value
of the i-th 6-byte group (at byte offset `off` within the group),
entries from `len` on keep their previous contents. -/
def decodeChannel (old bytes : List Nat) (len off : Nat)
    (dec : Nat → Nat → Nat → Nat) : List Nat :=
  (List.range 32).map fun i =>
    if i < len then
      dec (bytes.getD (6 * i + off) 0) (bytes.getD (6 * i + off + 1) 0)
        (bytes.getD (6 * i + off + 2) 0)
    else old.getD i 0

/-- Embedding of `max30102_work_handler` of the advanced module
(workqueue handler): read both status registers (any bus error aborts),
and if the FIFO-full bit (bit 7) is set, read the FIFO pointers,
compute `len = (write_ptr - read_ptr + 32) % 32`, reject `len == 0 ||
len > 32` as corrupt, allocate the scratch buffer, burst-read
`len * 6` bytes and decode them with the 18-bit formula, storing the
new arrays, count and full flag.  Every abort path leaves the state
unchanged.  The second component records whether the FIFO data burst
read was performed (equivalently, on this code path, whether a sample
set was published). -/
def max30102_work_handler_adv (bus : WorkBus) (st : DevState) :
    DevState × Bool :=
  match bus.status1Res with
  | .error _ => (st, false)
  | .ok s1v =>
    match bus.status2Res with
    | .error _ => (st, false)
    | .ok _ =>
      if (s1v % 256).testBit 7 then
        match bus.writePtrRes with
        | .error _ => (st, false)
        | .ok wpv =>
          match bus.readPtrRes with
          | .error _ => (st, false)
          | .ok rpv =>
            let len := fifoLenMod (wpv % 256) (rpv % 256)
            if len = 0 ∨ 32 < len then (st, false)
            else if bus.allocOk = false then (st, false)
            else
              match bus.fifoBytesRes (len * 6) with
              | .error _ => (st, false)
              | .ok bytes =>
                (⟨decodeChannel st.red_data bytes len 0 decode18,
                  decodeChannel st.ir_data bytes len 3 decode18,
                  len, true⟩, true)
      else (st, false)

/-- Embedding of `max30102_work_handler` of the basic driver
(`max30102-kernel-driver-basic/max30102_interrupt.c`): identical
control flow, but the sample count is `(write_ptr - read_ptr) & 0x1F`
and each channel byte triple is stored as the raw big-endian
concatenation `(b0 << 16) | (b1 << 8) | b2`. -/
def max30102_work_handler_basic (bus : WorkBus) (st : DevState) :
    DevState × Bool :=
  match bus.status1Res with
  | .error _ => (st, false)
  | .ok s1v =>
    match bus.status2Res with
    | .error _ => (st, false)
    | .ok _ =>
      if (s1v % 256).testBit 7 then
        match bus.writePtrRes with
        | .error _ => (st, false)
        | .ok wpv =>
          match bus.readPtrRes with
          | .error _ => (st, false)
          | .ok rpv =>
            let len := fifoLenAnd (wpv % 256) (rpv % 256)
            if len = 0 ∨ 32 < len then (st, false)
            else if bus.allocOk = false then (st, false)
            else
              match bus.fifoBytesRes (len * 6) with
              | .error _ => (st, false)
              | .ok bytes =>
                (⟨decodeChannel st.red_data bytes len 0 decode24,
                  decodeChannel st.ir_data bytes len 3 decode24,
                  len, true⟩, true)
      else (st, false)

/-- Abstract bus behaviour seen by one `max30102_read_temperature`
invocation (advanced module, `max30102_data.c`): the result of
writing 0x01 to the trigger register, the outcome of the k-th poll of
interrupt status register 2, and the outcomes of reading the integer
and fraction registers. -/
structure TempBus where
  trigWriteRes : Int
  statusRead : Nat → Except Int Nat
  intRead : Except Int Nat
  fracRead : Except Int Nat

/-- The temperature poll loop
`do { msleep(10); read status; timeout--; } while (!(status & (1 <<
DIE_TEMP_RDY)) && timeout > 0);` started with `timeout = t` at
attempt index `k`; returns the final value of `timeout` (or the bus
error of a failed status read).  The ready bit is
`MAX30102_INT_DIE_TEMP_RDY = 1`.  The `t = 0` pattern is never
reached from the driver's initial `timeout = 10` (the loop guard
keeps `timeout` positive); it is mapped to the timeout outcome, as
the C code's negative final `timeout` would be. -/
def tempPoll (sr : Nat → Except Int Nat) : Nat → Nat → Except Int Nat
  | k, 0 =>
    match sr k with
    | .error e => .error e
    | .ok _ => .ok 0
  | k, t + 1 =>
    match sr k with
    | .error e => .error e
    | .ok s =>
      if ¬ (s % 256).testBit 1 ∧ 0 < t then tempPoll sr (k + 1) t
      else .ok t

/-- C's `(int8_t)` cast of a byte: two's-complement reinterpretation
of the low 8 bits as a signed value in -128..127. -/
def int8val (b : Nat) : Int :=
  if b % 256 < 128 then (b % 256 : Int) else (b % 256 : Int) - 256

/-- Embedding of `max30102_read_temperature` of the advanced module:
trigger the one-shot conversion, run the poll loop with
`timeout = 10`, fail with `-ETIMEDOUT` when the final `timeout` is
not positive, otherwise read the integer and fraction registers and
combine them as `(int8_t)temp_int + temp_frac * 0.0625` (0.0625 =
1/16, exact in both binary floating point and `ℚ`). -/
def max30102_read_temperature (env : TempBus) : Except Int ℚ :=
  if env.trigWriteRes ≠ 0 then .error env.trigWriteRes
  else
    match tempPoll env.statusRead 0 10 with
    | .error e => .error e
    | .ok t =>
      if t = 0 then .error ETIMEDOUT
      else
        match env.intRead with
        | .error e => .error e
        | .ok ti =>
          match env.fracRead with
          | .error e => .error e
          | .ok tf =>
            .ok ((int8val ti : ℚ) + ((tf % 256 : Nat) : ℚ) * (1 / 16))

/-- An all-zero 32-entry device state. -/
def st0 : DevState :=
  ⟨List.replicate 32 0, List.replicate 32 0, 0, false⟩

/-- Concrete work bus for the C3 counterexample: FIFO-full bit set,
one pending sample, whose first byte triple is `(4, 0, 0)`. -/
def c3Bus : WorkBus :=
  ⟨.ok 128, .ok 0, .ok 1, .ok 0, fun _ => .ok [4, 0, 0, 0, 0, 0], true⟩

/-- Concrete temperature bus for the C2 counterexample: every bus
operation succeeds and the ready bit (bit 1) is first set at the
tenth poll attempt (index 9). -/
def c2StatusRead : Nat → Except Int Nat :=
  fun k => if 9 ≤ k then .ok 2 else .ok 0

/-- The C2 counterexample environment built over `c2StatusRead`. -/
def c2Env : TempBus := ⟨0, c2StatusRead, .ok 25, .ok 1⟩

/-- A temperature bus whose ready bit is set at the first poll and
which delivers integer byte `ti` and fraction byte `tf`. -/
def tempEnvRdy (ti tf : Nat) : TempBus :=
  ⟨0, fun _ => .ok 2, .ok ti, .ok tf⟩

end MAX30102

namespace MAX30102

/-- C4: for all FIFO pointer values in 0..31 the two sample-count
formulas used across driver versions agree. -/
theorem fifoLen_formulas_agree :
    ∀ wp : Nat, wp < 32 → ∀ rp : Nat, rp < 32 →
      fifoLenMod wp rp = fifoLenAnd wp rp := by decide

/-- Witness for `fifoLen_formulas_agree` at `wp = 3`, `rp = 17`. -/
theorem fifoLen_formulas_agree_witness :
    fifoLenMod 3 17 = fifoLenAnd 3 17 :=
  fifoLen_formulas_agree 3 (by decide) 17 (by decide)

/-- C1 (failing input): `SET_MODE` with the invalid mode byte 0x05.
`max30102_set_mode` rejects it with `-EINVAL` and performs no bus
access, but the dispatcher delivers 0 (success) to the caller: the
unconditional `ret = 0;` after the switch discards the setter's
return value, so a setter error is reported as success. -/
theorem ioctl_swallows_setter_error :
    max30102_set_mode cfgBus0 5 = (EINVAL, []) ∧
    max30102_ioctl cfgBus0 ⟨5, 0, 0, 0, 0, false, false, 0, 0⟩
      IoctlCmd.setMode = (0, []) ∧
    EINVAL ≠ (0 : Int) := by
  refine ⟨rfl, rfl, by decide⟩

/-- C5: `SET_SLOT` with a slot outside 1..4 or a led code outside the
valid range fails with `-EINVAL` and performs zero bus transactions —
no write and no read-modify-write — both in the setter
`max30102_set_slot` and at the ioctl dispatch layer (whose guard is
even stricter, `led > 2`). -/
theorem set_slot_invalid_rejected (bus : CfgBus) (a : IoctlArgs)
    (slot led : Nat) (h : slot < 1 ∨ 4 < slot ∨ 3 < led) :
    max30102_set_slot bus slot led = (EINVAL, []) ∧
    (a.copyFromUserFails = false → a.slot = slot → a.led = led →
      max30102_ioctl bus a IoctlCmd.setSlot = (EINVAL, [])) := by
  constructor
  · unfold max30102_set_slot
    rw [if_pos h]
  · intro hcf hslot hled
    unfold max30102_ioctl ioctlSwitch
    rw [hcf]
    simp only [Bool.false_eq_true, if_false]
    have hg : a.slot < 1 ∨ 4 < a.slot ∨ 2 < a.led := by
      rw [hslot, hled]; omega
    rw [if_pos hg]

/-- Witness for `set_slot_invalid_rejected` at `slot = 5`, `led = 0`. -/
theorem set_slot_invalid_rejected_witness :
    max30102_set_slot cfgBus0 5 0 = (EINVAL, []) ∧
    max30102_ioctl cfgBus0 ⟨0, 5, 0, 0, 0, false, false, 0, 0⟩
      IoctlCmd.setSlot = (EINVAL, []) := by
  have h := set_slot_invalid_rejected cfgBus0
    ⟨0, 5, 0, 0, 0, false, false, 0, 0⟩ 5 0 (by omega)
  exact ⟨h.1, h.2 rfl rfl rfl⟩

/-- C6: `max30102_set_spo2_config` validates the pulse-width /
sample-rate pairing before any bus access: a config byte with
pulse-width code 0 and sample-rate code 5 is rejected with `-EINVAL`
and no bus transaction, while a byte with pulse-width code 0 and
sample-rate code 3 passes validation and issues exactly one write of
the byte to the SpO2 configuration register. -/
theorem set_spo2_config_pairing (bus : CfgBus) (config : Nat)
    (hc : config < 128) (hpw : config &&& 3 = 0) :
    ((config >>> 2) &&& 7 = 5 →
      max30102_set_spo2_config bus config = (EINVAL, [])) ∧
    ((config >>> 2) &&& 7 = 3 →
      bus.writeRes REG_SPO2_CONFIG = 0 →
      max30102_set_spo2_config bus config =
        (0, [BusOp.write REG_SPO2_CONFIG config])) := by
  have hmod : config % 256 = config := Nat.mod_eq_of_lt (by omega)
  have hmask : ∀ c : Nat, c < 128 → u32 (c : Int) &&& 4294967168 = 0 := by
    decide
  constructor
  · intro hsr
    unfold max30102_set_spo2_config
    simp only [hmod, hmask config hc, ne_eq, not_true_eq_false, if_false,
      reduceIte, hpw, hsr]
    norm_num
  · intro hsr hw
    unfold max30102_set_spo2_config
    simp only [hmod, hmask config hc, ne_eq, not_true_eq_false, if_false,
      reduceIte, hpw, hsr, hw]
    norm_num

/-- Witness for `set_spo2_config_pairing`: config byte 0x14 is
pulse-width code 0 with sample-rate code 5 and is rejected; config
byte 0x0C is pulse-width code 0 with sample-rate code 3 and is
written. -/
theorem set_spo2_config_pairing_witness :
    max30102_set_spo2_config cfgBus0 20 = (EINVAL, []) ∧
    max30102_set_spo2_config cfgBus0 12 =
      (0, [BusOp.write REG_SPO2_CONFIG 12]) := by
  exact ⟨(set_spo2_config_pairing cfgBus0 20 (by decide) (by decide)).1
      (by decide),
    (set_spo2_config_pairing cfgBus0 12 (by decide) (by decide)).2
      (by decide) rfl⟩

/-- C8: the register access layer rejects `len > 32` with a parameter
error before any transport call, and for `len ≤ 32` it maps a short
transfer (a non-negative `i2c_transfer` return different from the
message count) to `-EIO`. -/
theorem reg_access_len_guard_and_short (len : Nat) (tr : Int) :
    (32 < len →
      max30102_write_reg tr len = (.error EINVAL, false) ∧
      max30102_read_reg tr len = (.error EINVAL, false)) ∧
    (len ≤ 32 → 0 ≤ tr → tr ≠ 1 →
      max30102_write_reg tr len = (.error EIO, true)) ∧
    (len ≤ 32 → 0 ≤ tr → tr ≠ 2 →
      max30102_read_reg tr len = (.error EIO, true)) := by
  refine ⟨fun h => ?_, fun h h0 h1 => ?_, fun h h0 h2 => ?_⟩
  · constructor
    · unfold max30102_write_reg; rw [if_pos h]
    · unfold max30102_read_reg; rw [if_pos h]
  · unfold max30102_write_reg
    rw [if_neg (by omega), if_pos h1, if_neg (by omega)]
  · unfold max30102_read_reg
    rw [if_neg (by omega), if_pos h2, if_neg (by omega)]

/-- Witness for `reg_access_len_guard_and_short`: `len = 33` is
rejected without a transport call, and a zero-message result (short
transfer) at `len = 6` is reported as `-EIO`. -/
theorem reg_access_len_guard_and_short_witness :
    (max30102_write_reg 1 33 = (.error EINVAL, false) ∧
      max30102_read_reg 1 33 = (.error EINVAL, false)) ∧
    max30102_write_reg 0 6 = (.error EIO, true) ∧
    max30102_read_reg 0 6 = (.error EIO, true) :=
  ⟨(reg_access_len_guard_and_short 33 1).1 (by omega),
   (reg_access_len_guard_and_short 6 0).2.1 (by omega) (by omega) (by omega),
   (reg_access_len_guard_and_short 6 0).2.2 (by omega) (by omega) (by omega)⟩

/-- The modulo-form sample count is either a valid value below 32 or,
when the C `int` subtraction was negative, at least 225 after the
`uint8_t` wraparound — it can never be 32. -/
theorem fifoLenMod_cases (wp rp : Nat) :
    fifoLenMod wp rp ≤ 31 ∨ 225 ≤ fifoLenMod wp rp := by
  unfold fifoLenMod u8
  rcases le_or_lt 0 ((wp : Int) - (rp : Int) + 32) with hd | hd
  · rw [Int.tmod_eq_emod hd (by norm_num)]
    omega
  · obtain ⟨k, hk⟩ := Int.eq_negSucc_of_lt_zero hd
    rw [hk]
    have htm : Int.tmod (Int.negSucc k) 32 = -(((k + 1) % 32 : Nat) : Int) :=
      rfl
    rw [htm]
    have hs : (k + 1) % 32 < 32 := Nat.mod_lt _ (by norm_num)
    omega

/-- The and-form sample count is always at most 31. -/
theorem fifoLenAnd_le (wp rp : Nat) : fifoLenAnd wp rp ≤ 31 := by
  unfold fifoLenAnd u8
  have h : u32 ((wp : Int) - (rp : Int)) &&& 31 ≤ 31 := Nat.and_le_right
  omega

/-- Reading entry `i < len ≤ 32` of a decoded channel array yields the
decoder applied to the i-th byte triple. -/
theorem decodeChannel_getD (old bytes : List Nat) (len off i : Nat)
    (dec : Nat → Nat → Nat → Nat) (hi : i < len) (hl : len ≤ 32) :
    (decodeChannel old bytes len off dec).getD i 0 =
      dec (bytes.getD (6 * i + off) 0) (bytes.getD (6 * i + off + 1) 0)
        (bytes.getD (6 * i + off + 2) 0) := by
  have h32 : i < 32 := by omega
  unfold decodeChannel
  rw [List.getD_eq_getElem _ _ (by simpa using h32)]
  simp [List.getElem_map, List.getElem_range, hi]

/-- A `getD` from a list of bytes is itself a byte. -/
theorem getD_lt_of_bytes (l : List Nat) (h : ∀ b ∈ l, b < 256) (j : Nat) :
    l.getD j 0 < 256 := by
  rcases Nat.lt_or_ge j l.length with hj | hj
  · rw [List.getD_eq_getElem _ _ hj]
    exact h _ (List.getElem_mem hj)
  · rw [List.getD_eq_default _ _ hj]
    omega

/-- The 18-bit decode of three bytes is below 2^18. -/
theorem decode18_lt (b0 b1 b2 : Nat) (h0 : b0 < 256) (h1 : b1 < 256)
    (h2 : b2 < 256) : decode18 b0 b1 b2 < 2 ^ 18 := by
  unfold decode18
  refine Nat.or_lt_two_pow (Nat.or_lt_two_pow ?_ ?_) ?_
  · rw [Nat.shiftLeft_eq]
    norm_num
    omega
  · rw [Nat.shiftLeft_eq]
    norm_num
    omega
  · rw [Nat.shiftRight_eq_div_pow]
    norm_num
    omega

/-- C7: whenever the computed sample count is 0 or above 32, the
advanced work handler abandons the drain: no FIFO data burst read is
performed and the stored arrays, count and full flag are all left
unchanged. -/
theorem work_handler_corrupt_count_skips (bus : WorkBus) (st : DevState)
    (s1 s2 wp rp : Nat)
    (h1 : bus.status1Res = .ok s1) (h2 : bus.status2Res = .ok s2)
    (hw : bus.writePtrRes = .ok wp) (hr : bus.readPtrRes = .ok rp)
    (hlen : fifoLenMod (wp % 256) (rp % 256) = 0 ∨
      32 < fifoLenMod (wp % 256) (rp % 256)) :
    max30102_work_handler_adv bus st = (st, false) := by
  unfold max30102_work_handler_adv
  rw [h1, h2]
  dsimp only
  by_cases hbit : (s1 % 256).testBit 7 = true
  · rw [if_pos hbit, hw, hr]
    dsimp only
    rw [if_pos hlen]
  · rw [if_neg hbit]

/-- Witness for `work_handler_corrupt_count_skips`: equal pointers
give a computed count of 0 and the state is left untouched. -/
theorem work_handler_corrupt_count_skips_witness :
    max30102_work_handler_adv
      ⟨.ok 128, .ok 0, .ok 5, .ok 5, fun _ => .ok [], true⟩ st0 =
      (st0, false) :=
  work_handler_corrupt_count_skips
    ⟨.ok 128, .ok 0, .ok 5, .ok 5, fun _ => .ok [], true⟩ st0
    128 0 5 5 rfl rfl rfl rfl (by decide)

/-- Either an advanced work-handler invocation publishes nothing, or
its published count is a pointer difference that passed the
corruption guard. -/
theorem work_handler_adv_shape (bus : WorkBus) (st : DevState) :
    (max30102_work_handler_adv bus st).2 = false ∨
    ∃ wp rp, bus.writePtrRes = .ok wp ∧ bus.readPtrRes = .ok rp ∧
      ¬ (fifoLenMod (wp % 256) (rp % 256) = 0 ∨
        32 < fifoLenMod (wp % 256) (rp % 256)) ∧
      (max30102_work_handler_adv bus st).1.data_len =
        fifoLenMod (wp % 256) (rp % 256) := by
  unfold max30102_work_handler_adv
  cases bus.status1Res with
  | error e => exact Or.inl rfl
  | ok s1 =>
    cases bus.status2Res with
    | error e => exact Or.inl rfl
    | ok s2 =>
      dsimp only
      by_cases hbit : (s1 % 256).testBit 7 = true
      · rw [if_pos hbit]
        cases hwp : bus.writePtrRes with
        | error e => exact Or.inl rfl
        | ok wp =>
          cases hrp : bus.readPtrRes with
          | error e => exact Or.inl rfl
          | ok rp =>
            dsimp only
            by_cases hg : fifoLenMod (wp % 256) (rp % 256) = 0 ∨
                32 < fifoLenMod (wp % 256) (rp % 256)
            · rw [if_pos hg]; exact Or.inl rfl
            · rw [if_neg hg]
              cases bus.allocOk with
              | false => rw [if_pos rfl]; exact Or.inl rfl
              | true =>
                rw [if_neg (by simp)]
                cases bus.fifoBytesRes
                    (fifoLenMod (wp % 256) (rp % 256) * 6) with
                | error e => exact Or.inl rfl
                | ok bytes => exact Or.inr ⟨wp, rp, rfl, rfl, hg, rfl⟩
      · rw [if_neg hbit]; exact Or.inl rfl

/-- Either a basic work-handler invocation publishes nothing, or its
published count is a masked pointer difference that passed the
corruption guard. -/
theorem work_handler_basic_shape (bus : WorkBus) (st : DevState) :
    (max30102_work_handler_basic bus st).2 = false ∨
    ∃ wp rp, bus.writePtrRes = .ok wp ∧ bus.readPtrRes = .ok rp ∧
      ¬ (fifoLenAnd (wp % 256) (rp % 256) = 0 ∨
        32 < fifoLenAnd (wp % 256) (rp % 256)) ∧
      (max30102_work_handler_basic bus st).1.data_len =
        fifoLenAnd (wp % 256) (rp % 256) := by
  unfold max30102_work_handler_basic
  cases bus.status1Res with
  | error e => exact Or.inl rfl
  | ok s1 =>
    cases bus.status2Res with
    | error e => exact Or.inl rfl
    | ok s2 =>
      dsimp only
      by_cases hbit : (s1 % 256).testBit 7 = true
      · rw [if_pos hbit]
        cases hwp : bus.writePtrRes with
        | error e => exact Or.inl rfl
        | ok wp =>
          cases hrp : bus.readPtrRes with
          | error e => exact Or.inl rfl
          | ok rp =>
            dsimp only
            by_cases hg : fifoLenAnd (wp % 256) (rp % 256) = 0 ∨
                32 < fifoLenAnd (wp % 256) (rp % 256)
            · rw [if_pos hg]; exact Or.inl rfl
            · rw [if_neg hg]
              cases bus.allocOk with
              | false => rw [if_pos rfl]; exact Or.inl rfl
              | true =>
                rw [if_neg (by simp)]
                cases bus.fifoBytesRes
                    (fifoLenAnd (wp % 256) (rp % 256) * 6) with
                | error e => exact Or.inl rfl
                | ok bytes => exact Or.inr ⟨wp, rp, rfl, rfl, hg, rfl⟩
      · rw [if_neg hbit]; exact Or.inl rfl

/-- C10: whenever a work-handler invocation publishes a sample set
(in either driver version), the stored count lies in 1..31 — a count
of 32 is never published, even though the declared capacity is 32. -/
theorem work_handler_published_count_bounds (bus : WorkBus) (st : DevState) :
    ((max30102_work_handler_adv bus st).2 = true →
      1 ≤ (max30102_work_handler_adv bus st).1.data_len ∧
      (max30102_work_handler_adv bus st).1.data_len ≤ 31) ∧
    ((max30102_work_handler_basic bus st).2 = true →
      1 ≤ (max30102_work_handler_basic bus st).1.data_len ∧
      (max30102_work_handler_basic bus st).1.data_len ≤ 31) := by
  constructor
  · intro h
    rcases work_handler_adv_shape bus st with hf | ⟨wp, rp, _, _, hg, hdl⟩
    · rw [hf] at h
      exact absurd h (by simp)
    · rw [hdl]
      rcases fifoLenMod_cases (wp % 256) (rp % 256) with hb | hb <;> omega
  · intro h
    rcases work_handler_basic_shape bus st with hf | ⟨wp, rp, _, _, hg, hdl⟩
    · rw [hf] at h
      exact absurd h (by simp)
    · rw [hdl]
      have hb := fifoLenAnd_le (wp % 256) (rp % 256)
      omega

/-- Witness for `work_handler_published_count_bounds` at the concrete
bus `c3Bus` (which publishes one sample). -/
theorem work_handler_published_count_bounds_witness :
    1 ≤ (max30102_work_handler_basic c3Bus st0).1.data_len ∧
    (max30102_work_handler_basic c3Bus st0).1.data_len ≤ 31 :=
  (work_handler_published_count_bounds c3Bus st0).2 rfl

/-- C3 (counterexample): on the basic work handler, with one pending
sample whose first byte triple is `(4, 0, 0)`, the stored Red value
is `4 << 16 = 262144` — not an 18-bit value and different from the
claimed decode `(4 << 10) | (0 << 2) | (0 >> 6) = 4096`. -/
theorem basic_decode_not_18bit :
    (max30102_work_handler_basic c3Bus st0).1.red_data.getD 0 0 = 262144 ∧
    ¬ (max30102_work_handler_basic c3Bus st0).1.red_data.getD 0 0 < 2 ^ 18 ∧
    (max30102_work_handler_basic c3Bus st0).1.red_data.getD 0 0 ≠
      decode18 4 0 0 := by
  have e : (max30102_work_handler_basic c3Bus st0).1.red_data.getD 0 0 =
      262144 := rfl
  refine ⟨e, ?_, ?_⟩
  · rw [e]; decide
  · rw [e]; decide

/-- C3 (amended): in the advanced work handler, every stored sample is
decoded by `red = (b0 << 10) | (b1 << 2) | (b2 >> 6)` and
`ir = (b3 << 10) | (b4 << 2) | (b5 >> 6)` from its 6-byte group, and
is therefore an 18-bit value. -/
theorem work_handler_adv_decode (bus : WorkBus) (st : DevState)
    (s1 s2 wp rp : Nat) (bytes : List Nat)
    (h1 : bus.status1Res = .ok s1) (h2 : bus.status2Res = .ok s2)
    (hbit : (s1 % 256).testBit 7 = true)
    (hw : bus.writePtrRes = .ok wp) (hr : bus.readPtrRes = .ok rp)
    (hlen : ¬ (fifoLenMod (wp % 256) (rp % 256) = 0 ∨
      32 < fifoLenMod (wp % 256) (rp % 256)))
    (halloc : bus.allocOk = true)
    (hb : bus.fifoBytesRes (fifoLenMod (wp % 256) (rp % 256) * 6) = .ok bytes)
    (hbytes : ∀ b ∈ bytes, b < 256)
    (i : Nat) (hi : i < fifoLenMod (wp % 256) (rp % 256)) :
    ((max30102_work_handler_adv bus st).1.red_data.getD i 0 =
      ((bytes.getD (6 * i) 0) <<< 10) ||| ((bytes.getD (6 * i + 1) 0) <<< 2)
        ||| ((bytes.getD (6 * i + 2) 0) >>> 6)) ∧
    (max30102_work_handler_adv bus st).1.red_data.getD i 0 < 2 ^ 18 ∧
    ((max30102_work_handler_adv bus st).1.ir_data.getD i 0 =
      ((bytes.getD (6 * i + 3) 0) <<< 10) ||| ((bytes.getD (6 * i + 4) 0) <<< 2)
        ||| ((bytes.getD (6 * i + 5) 0) >>> 6)) ∧
    (max30102_work_handler_adv bus st).1.ir_data.getD i 0 < 2 ^ 18 := by
  have hl32 : fifoLenMod (wp % 256) (rp % 256) ≤ 32 := by omega
  have estate : max30102_work_handler_adv bus st =
      (⟨decodeChannel st.red_data bytes (fifoLenMod (wp % 256) (rp % 256)) 0
          decode18,
        decodeChannel st.ir_data bytes (fifoLenMod (wp % 256) (rp % 256)) 3
          decode18,
        fifoLenMod (wp % 256) (rp % 256), true⟩, true) := by
    unfold max30102_work_handler_adv
    rw [h1, h2]
    dsimp only
    rw [if_pos hbit, hw, hr]
    dsimp only
    rw [if_neg hlen, halloc, if_neg (by simp : ¬ (true = false)), hb]
  rw [estate]
  simp only []
  have hred := decodeChannel_getD st.red_data bytes
    (fifoLenMod (wp % 256) (rp % 256)) 0 i decode18 hi hl32
  have hir := decodeChannel_getD st.ir_data bytes
    (fifoLenMod (wp % 256) (rp % 256)) 3 i decode18 hi hl32
  rw [Nat.add_zero] at hred
  refine ⟨?_, ?_, ?_, ?_⟩
  · rw [hred]; rfl
  · rw [hred]
    exact decode18_lt _ _ _ (getD_lt_of_bytes bytes hbytes _)
      (getD_lt_of_bytes bytes hbytes _) (getD_lt_of_bytes bytes hbytes _)
  · rw [hir]; rfl
  · rw [hir]
    exact decode18_lt _ _ _ (getD_lt_of_bytes bytes hbytes _)
      (getD_lt_of_bytes bytes hbytes _) (getD_lt_of_bytes bytes hbytes _)

/-- Witness for `work_handler_adv_decode` on a concrete bus with one
pending sample of bytes `(4, 0, 0, 1, 2, 3)`. -/
theorem work_handler_adv_decode_witness :
    ((max30102_work_handler_adv
        ⟨.ok 128, .ok 0, .ok 1, .ok 0, fun _ => .ok [4, 0, 0, 1, 2, 3], true⟩
        st0).1.red_data.getD 0 0 =
      (((4 : Nat) <<< 10) ||| ((0 : Nat) <<< 2) ||| ((0 : Nat) >>> 6))) ∧
    (max30102_work_handler_adv
        ⟨.ok 128, .ok 0, .ok 1, .ok 0, fun _ => .ok [4, 0, 0, 1, 2, 3], true⟩
        st0).1.red_data.getD 0 0 < 2 ^ 18 := by
  have h := work_handler_adv_decode
    ⟨.ok 128, .ok 0, .ok 1, .ok 0, fun _ => .ok [4, 0, 0, 1, 2, 3], true⟩
    st0 128 0 1 0 [4, 0, 0, 1, 2, 3] rfl rfl (by decide) rfl rfl
    (by decide) rfl rfl (by decide) 0 (by decide)
  exact ⟨h.1, h.2.1⟩

/-- One-step unfolding of the poll loop at a zero timeout. -/
theorem tempPoll_zero (sr : Nat → Except Int Nat) (k : Nat) :
    tempPoll sr k 0 =
      match sr k with
      | .error e => .error e
      | .ok _ => .ok 0 := rfl

/-- One-step unfolding of the poll loop at a positive timeout. -/
theorem tempPoll_succ (sr : Nat → Except Int Nat) (k t : Nat) :
    tempPoll sr k (t + 1) =
      match sr k with
      | .error e => .error e
      | .ok s =>
        if ¬ (s % 256).testBit 1 ∧ 0 < t then tempPoll sr (k + 1) t
        else .ok t := rfl

/-- When every status read succeeds, the poll loop terminates with a
final timeout value (it never propagates a bus error). -/
theorem tempPoll_ok (sr : Nat → Except Int Nat) (sv : Nat → Nat)
    (hs : ∀ k, sr k = .ok (sv k)) :
    ∀ t k, ∃ r, tempPoll sr k t = .ok r := by
  intro t
  induction t with
  | zero =>
    intro k
    exact ⟨0, by rw [tempPoll_zero, hs k]⟩
  | succ t ih =>
    intro k
    by_cases hb : ¬ ((sv k) % 256).testBit 1 ∧ 0 < t
    · obtain ⟨r, hr⟩ := ih (k + 1)
      refine ⟨r, ?_⟩
      rw [tempPoll_succ, hs k]
      dsimp only
      rw [if_pos hb]
      exact hr
    · refine ⟨t, ?_⟩
      rw [tempPoll_succ, hs k]
      dsimp only
      rw [if_neg hb]

/-- The poll loop started at attempt `k` with `timeout = t + 1` ends
with a zero timeout exactly when the ready bit (bit 1) is absent from
the first `t` polled status bytes. -/
theorem tempPoll_zero_iff (sr : Nat → Except Int Nat) (sv : Nat → Nat)
    (hs : ∀ k, sr k = .ok (sv k)) :
    ∀ t k, (tempPoll sr k (t + 1) = .ok 0 ↔
      ∀ j, j < t → ((sv (k + j)) % 256).testBit 1 = false) := by
  intro t
  induction t with
  | zero =>
    intro k
    constructor
    · intro _ j hj
      omega
    · intro _
      rw [tempPoll_succ, hs k]
      simp
  | succ t ih =>
    intro k
    have e : tempPoll sr k (t + 1 + 1) =
        if ¬ ((sv k) % 256).testBit 1 ∧ 0 < t + 1 then
          tempPoll sr (k + 1) (t + 1)
        else .ok (t + 1) := by
      rw [tempPoll_succ, hs k]
    rcases Bool.eq_false_or_eq_true (((sv k) % 256).testBit 1) with hbt | hbf
    · rw [e, if_neg (by simp [hbt])]
      constructor
      · intro h
        exact absurd h (by simp)
      · intro h
        exact absurd (h 0 (by omega)) (by simp [hbt])
    · rw [e, if_pos ⟨by simp [hbf], by omega⟩, ih (k + 1)]
      constructor
      · intro h j hj
        rcases Nat.eq_zero_or_pos j with rfl | hp
        · simpa using hbf
        · have := h (j - 1) (by omega)
          rw [show k + 1 + (j - 1) = k + j by omega] at this
          exact this
      · intro h j hj
        have := h (j + 1) (by omega)
        rw [show k + (j + 1) = k + 1 + j by omega] at this
        exact this

/-- C2 (counterexample): with every bus operation succeeding and the
ready bit first set at the tenth poll attempt (index 9), the
operation still returns `-ETIMEDOUT` — the bit was observed within
the 10-attempt budget, yet the result is `Timeout`, because the
`timeout <= 0` check runs after the decrement of the tenth
iteration. -/
theorem read_temperature_tenth_attempt_timeout :
    max30102_read_temperature c2Env = .error ETIMEDOUT ∧
    c2Env.statusRead 9 = .ok 2 ∧ ((2 : Nat) % 256).testBit 1 = true := by
  refine ⟨rfl, rfl, by decide⟩

/-- C2 (amended): with all bus reads succeeding, the temperature read
fails with `-ETIMEDOUT` exactly when the ready bit is not observed in
any of the first 9 of the 10 poll attempts; an observation first
occurring on the 10th attempt still times out. -/
theorem read_temperature_timeout_iff (env : TempBus) (sv : Nat → Nat)
    (htrig : env.trigWriteRes = 0)
    (hs : ∀ k, env.statusRead k = .ok (sv k))
    (ti tf : Nat) (hi : env.intRead = .ok ti) (hf : env.fracRead = .ok tf) :
    (max30102_read_temperature env = .error ETIMEDOUT ↔
      ∀ k, k < 9 → ((sv k) % 256).testBit 1 = false) := by
  unfold max30102_read_temperature
  rw [htrig, if_neg (by norm_num)]
  obtain ⟨r, hr⟩ := tempPoll_ok env.statusRead sv hs 10 0
  rw [hr]
  dsimp only
  rcases Nat.eq_zero_or_pos r with rfl | hpos
  · rw [if_pos rfl]
    have hall := (tempPoll_zero_iff env.statusRead sv hs 9 0).1 hr
    exact iff_of_true rfl (fun k hk => by simpa using hall k hk)
  · rw [if_neg (by omega), hi, hf]
    dsimp only
    refine iff_of_false (by simp) (fun hall => ?_)
    have : tempPoll env.statusRead 0 10 = .ok 0 :=
      (tempPoll_zero_iff env.statusRead sv hs 9 0).2
        (fun j hj => by simpa using hall j hj)
    rw [hr] at this
    simp at this
    omega

/-- Witness for `read_temperature_timeout_iff` on a bus whose ready
bit is set at the first poll. -/
theorem read_temperature_timeout_iff_witness :
    max30102_read_temperature (tempEnvRdy 25 1) = .error ETIMEDOUT ↔
      ∀ k, k < 9 → ((2 : Nat) % 256).testBit 1 = false :=
  read_temperature_timeout_iff (tempEnvRdy 25 1) (fun _ => 2) rfl
    (fun _ => rfl) 25 1 rfl rfl

/-- C9: the combined temperature equals the integer byte reinterpreted
as a two's-complement signed byte plus the fraction byte times 1/16
(= 0.0625); in particular integer 25 with fraction 1 yields 25.0625 =
401/16, and integer 0xFF (-1) with fraction 8 yields -0.5. -/
theorem read_temperature_combined_value (env : TempBus) (ti tf : Nat)
    (htrig : env.trigWriteRes = 0) (hs0 : env.statusRead 0 = .ok 2)
    (hi : env.intRead = .ok ti) (hf : env.fracRead = .ok tf) :
    max30102_read_temperature env =
      .ok ((int8val ti : ℚ) + ((tf % 256 : Nat) : ℚ) * (1 / 16)) ∧
    (int8val 25 : ℚ) + (((1 : Nat) % 256 : Nat) : ℚ) * (1 / 16) = 401 / 16 ∧
    (int8val 255 : ℚ) + (((8 : Nat) % 256 : Nat) : ℚ) * (1 / 16) = -(1 / 2) := by
  refine ⟨?_, by norm_num [int8val], by norm_num [int8val]⟩
  unfold max30102_read_temperature
  rw [htrig, if_neg (by norm_num)]
  have hbit : ((2 : Nat) % 256).testBit 1 = true := by decide
  have hp : tempPoll env.statusRead 0 10 = .ok 9 := by
    rw [tempPoll_succ, hs0]
    dsimp only
    rw [if_neg (by simp [hbit])]
  rw [hp]
  dsimp only
  rw [if_neg (by omega), hi, hf]

/-- Witness for `read_temperature_combined_value` at integer byte 25
and fraction byte 1. -/
theorem read_temperature_combined_value_witness :
    max30102_read_temperature (tempEnvRdy 25 1) =
      .ok ((int8val 25 : ℚ) + (((1 : Nat) % 256 : Nat) : ℚ) * (1 / 16)) :=
  (read_temperature_combined_value (tempEnvRdy 25 1) 25 1 rfl rfl rfl rfl).1

end MAX30102
